import Mathlib

/-!
Verification of the AI Food Recommendation Chatbot (multi-agent RAG system).

This file shallowly embeds the Python source (memory.py, utils.py,
conversation_agent.py, response_generator.py, query_enhancer.py, rerank.py)
into Lean 4 and proves/refutes the frozen claims about it.

Modelling conventions:
* Python dicts with string keys are association lists `List (String × α)`
  with first-match lookup (`dictGet`) and in-place update that preserves
  insertion order and appends fresh keys at the end (`dictSet`), exactly
  Python's dict semantics.
* Slot values are strings or integers (`Val`); a slot holding Python `None`
  is `Option.none`.
* `d.get(k)` (default `None`) is `pyGet`; Python truthiness of a slot value
  is `truthy`.
* Floats (ratings, prices, confidences) are modelled as rationals `ℚ`:
  all arithmetic the claims mention is exact at the relevant inputs.
-/

/-- A Python value stored in a slot: a string or an integer. -/
inductive Val where
  | str : String → Val
  | int : Int → Val
deriving DecidableEq, Repr

/-- A Python dict with string keys and possibly-None values
(the slot store type of `ConversationMemory.slots` in memory.py). -/
abbrev Store := List (String × Option Val)

/-- First-match lookup: `some v` iff the key is present (v itself may be
`none`, i.e. Python `None`); `none` iff the key is absent. -/
def dictGet : Store → String → Option (Option Val)
  | [], _ => none
  | (k', v) :: rest, k => if k' = k then some v else dictGet rest k

/-- Python `d[k] = v`: overwrite in place if present, else append. -/
def dictSet : Store → String → Option Val → Store
  | [], k, v => [(k, v)]
  | (k', v') :: rest, k, v =>
      if k' = k then (k', v) :: rest else (k', v') :: dictSet rest k v

/-- Python `d.get(k)` with default `None`. -/
def pyGet (s : Store) (k : String) : Option Val := (dictGet s k).getD none

/-- Python truthiness of a slot value (`None`, `""` and `0` are falsy). -/
def truthy : Option Val → Bool
  | none => false
  | some (.str t) => t != ""
  | some (.int n) => n != 0

/-- Python `f"{v}"` for a slot value. -/
def valStr : Option Val → String
  | some (.str t) => t
  | some (.int n) => toString n
  | none => "None"

/-! ### utils.py: the recognized slot set and its declared domains -/

/-- The keys of `REQUIRED_SLOTS` (utils.py lines 30-78), in declaration
order. -/
def SLOT_KEYS : List String :=
  ["dietary", "cuisine_1", "cuisine_2", "item_name", "price", "meal_type", "label"]

/-- Membership of a value in a slot's declared domain per `REQUIRED_SLOTS`:
enumerated string values where a non-empty `values` list is declared, any
string where `values` is empty, and the declared `min`/`max` integer range
for `price`. -/
def inDomain : String → Val → Bool
  | "dietary", .str t => decide (t ∈ ["veg", "nonveg", "vegan"])
  | "cuisine_1", .str _ => true
  | "cuisine_2", .str _ => true
  | "item_name", .str _ => true
  | "price", .int n => decide (50 ≤ n ∧ n ≤ 2000)
  | "meal_type", .str t => decide (t ∈ ["breakfast", "lunch", "dinner", "snacks"])
  | "label", .str t =>
      decide (t ∈ ["bestseller", "must try", "chef\x27s special", "new", "seasonal",
        "spicy", "dairy free", "vegan", "gluten free", "eggless available",
        "fodmap friendly", "not eligible for coupons", "not on pro"])
  | _, _ => false

/-! ### memory.py: ConversationMemory slot operations -/

/-- Embeds `ConversationMemory.__init__`: every recognized slot starts as `None`. -/
def initial_slots : Store := SLOT_KEYS.map (fun k => (k, none))

/-- Embeds `ConversationMemory.update_slot` (memory.py 40-50): reject unknown slot
keys (returning `false`, store untouched), otherwise store the value
unconditionally and return `true`. -/
def update_slot (s : Store) (slot : String) (value : Option Val) : Store × Bool :=
  if slot ∈ SLOT_KEYS then (dictSet s slot value, true) else (s, false)

/-- Embeds `ConversationMemory.update_slots_preserving_context` (memory.py 52-61):
for each entry of the delta whose key is not `"user_intent"` and whose value
is not `None`, overwrite that key in the store. -/
def update_slots_preserving_context (s : Store) (new_slots : Store) : Store :=
  new_slots.foldl
    (fun acc kv => if kv.1 ≠ "user_intent" ∧ kv.2 ≠ none then dictSet acc kv.1 kv.2 else acc)
    s

/-- Embeds `ConversationMemory.get_missing_slots` (memory.py 72-78): the recognized
slots whose current value is falsy (`None`, `""`, `0`). -/
def get_missing_slots (s : Store) : List String :=
  SLOT_KEYS.filter (fun k => !truthy (pyGet s k))

/-- Embeds `ConversationMemory.get_filled_slots` (memory.py 80-82): the entries
whose value is not `None`. -/
def get_filled_slots (s : Store) : Store :=
  s.filter (fun kv => kv.2 ≠ none)

/-- Embeds `ConversationMemory.replace_all_slots` (memory.py 107-119): set every
recognized slot to `None`, then apply the recognized, non-`None` entries of
the delta. -/
def replace_all_slots (s : Store) (new_slots : Store) : Store :=
  let cleared := SLOT_KEYS.foldl (fun acc k => dictSet acc k none) s
  new_slots.foldl
    (fun acc kv => if kv.1 ∈ SLOT_KEYS ∧ kv.2 ≠ none then dictSet acc kv.1 kv.2 else acc)
    cleared

/-- The slot dict literal written out in `ConversationMemory.clear`
(memory.py line 123). -/
def clear_slots : Store :=
  [("dietary", none), ("cuisine_1", none), ("cuisine_2", none), ("item_name", none),
   ("price", none), ("meal_type", none), ("label", none)]

/-- Embeds `ConversationMemory.display_all_slots` (memory.py 68-70). -/
def display_all_slots (s : Store) : List (String × Val) :=
  s.map (fun kv => (kv.1, kv.2.getD (.str "null")))

/-- Embeds `ConversationMemory._update_context_summary` (memory.py 98-105). -/
def context_summary_of (s : Store) : String :=
  let filled := get_filled_slots s
  if filled ≠ [] then
    "Prefs: " ++ String.intercalate ", " (filled.map (fun kv => kv.1 ++ "=" ++ valStr kv.2))
  else "No preferences set"

/-! ### response_generator.py: systematic state decision -/

/-- Embeds `ConversationState` constants (response_generator.py 12-18). -/
def NEED_DIETARY : String := "need_dietary"

def NEED_PRICE : String := "need_price"

def READY_FOR_SEARCH : String := "ready_for_search"

/-- Python `s.lower()`, character by character (identical to
`String.toLower` and to Python on the ASCII strings involved). -/
def pyLower (s : String) : String := String.mk (s.toList.map Char.toLower)

/-- Python `pat in hay` substring containment. -/
def strContains (hay pat : String) : Bool :=
  hay.toList.tails.any (fun t => pat.toList.isPrefixOf t)

/-- The "no restrictions" phrase set (response_generator.py line 83). -/
def no_restriction_phrases : List String :=
  ["no restrictions", "not picky", "eat everything", "whatever", "don\x27t care"]

/-- Embeds `ResponseGenerator._determine_systematic_state` (response_generator.py
75-94): a pure function of the filled slots and the raw utterance; it
returns only a state string and touches no slot. -/
def _determine_systematic_state (filled_slots : Store) (user_msg : String) : String :=
  let has_dietary := (pyGet filled_slots "dietary").isSome
  let has_price := (pyGet filled_slots "price").isSome
  if no_restriction_phrases.any (fun p => strContains (pyLower user_msg) p) ∧ has_dietary = false then
    NEED_PRICE
  else if has_dietary = false then NEED_DIETARY
  else if has_price = false then NEED_PRICE
  else READY_FOR_SEARCH

/-! ### conversation_agent.py: action decision, error response, handle_turn -/

/-- The affirmative confirmation tokens (conversation_agent.py line 169). -/
def confirm_tokens : List String :=
  ["yes", "yeah", "sure", "ok", "find recommendations", "search"]

/-- The dict returned by `ResponseGenerator.generate` (all four keys are
always present on the non-exception path, see `_parse_systematic_response`
and `_systematic_fallback_response`). -/
structure RespData where
  response_text : String
  next_questions : List String
  action : String
  question_history : List String
deriving DecidableEq, Repr

/-- Embeds `OpenAIConversationAgent._determine_enhanced_action`
(conversation_agent.py 161-177). The `response_data` argument is accepted
and ignored, as in the source. -/
def _determine_enhanced_action (filled_slots : Store) (_response_data : RespData)
    (user_message : String) : String :=
  let has_dietary := (pyGet filled_slots "dietary").isSome
  let has_price := (pyGet filled_slots "price").isSome
  if pyLower user_message ∈ confirm_tokens ∧ has_dietary ∧ has_price then "SEARCH"
  else if has_dietary ∧ has_price then "ASK_SEARCH_CONFIRMATION"
  else "ASK"

/-- Embeds `ConversationTurn` (memory.py 15-24); the timestamp is the `now` string
passed explicitly to `add_turn` below (Python takes `datetime.now()`). -/
structure ConversationTurn where
  timestamp : String
  user_message : String
  system_response : String
  intent : String
  confidence : ℚ
  slots_updated : Store
  action_state : String
deriving DecidableEq, Repr

/-- Embeds `ConversationMemory` state (memory.py 26-38). -/
structure Memory where
  slots : Store
  history : List ConversationTurn
  current_state : String
  context_summary : String
deriving DecidableEq, Repr

def initial_memory : Memory :=
  { slots := initial_slots, history := [], current_state := "greeting", context_summary := "" }

/-- Embeds `ConversationMemory.add_turn` (memory.py 84-96), including the
`_update_context_summary` call. -/
def add_turn (m : Memory) (now user_message system_response intent : String)
    (confidence : ℚ) (slots_updated : Store) : Memory :=
  let turn : ConversationTurn :=
    { timestamp := now, user_message := user_message, system_response := system_response,
      intent := intent, confidence := confidence, slots_updated := slots_updated,
      action_state := "" }
  { m with history := m.history ++ [turn], context_summary := context_summary_of m.slots }

/-- Embeds `ConversationMemory.clear` (memory.py 121-127). -/
def memory_clear (_m : Memory) : Memory :=
  { slots := clear_slots, history := [], current_state := "greeting", context_summary := "" }

/-- One entry of `self.conversation_flow` (conversation_agent.py 137-143). -/
structure FlowEntry where
  turn : Nat
  user_input : String
  action : String
  slots_extracted : Store
  response_preview : String
deriving DecidableEq, Repr

/-- The agent's mutable attributes touched by `handle_turn`
(conversation_agent.py 25-38). -/
structure AgentState where
  memory : Memory
  conversation_flow : List FlowEntry
  questions_asked : List String
  recommendations_shown : Bool
deriving DecidableEq, Repr

/-- The dict returned by `handle_turn`; keys the error path leaves out of
its dict (`all_slots`, `intent`, ...) are modelled by neutral defaults. -/
structure TurnResponse where
  action : String
  response : String
  next_questions : List String
  slots_updated : Store
  all_slots : List (String × Val)
  intent : String
  confidence : ℚ
  conversation_turn : Nat
  conversation_continues : Bool
  error : Option String
  post_recommendation : Bool
deriving DecidableEq, Repr

/-- Embeds `OpenAIConversationAgent._enhanced_error_response`
(conversation_agent.py 179-189). -/
def _enhanced_error_response (error_msg : String) : TurnResponse :=
  { action := "CONTINUE",
    response := "I apologize, but I had a small hiccup. Let\x27s continue - what would you like to explore for your meal?",
    next_questions := ["What type of food sounds good to you right now?"],
    slots_updated := [],
    all_slots := [],
    intent := "",
    confidence := 0,
    conversation_turn := 0,
    conversation_continues := true,
    error := some error_msg,
    post_recommendation := false }

/-- Python `s[:50] + "..."` (conversation_agent.py line 142). -/
def preview50 (s : String) : String := String.mk (s.toList.take 50) ++ "..."

/-- Embeds `slots_extracted.get("user_intent", "slot_updation")`
(conversation_agent.py line 53). -/
def extracted_user_intent (slots_extracted : Store) : Option Val :=
  match dictGet slots_extracted "user_intent" with
  | some v => v
  | none => some (.str "slot_updation")

/-- Embeds `OpenAIConversationAgent.handle_turn` (conversation_agent.py 40-158).
The three LLM-backed calls inside the `try` block — slot extraction
(`query_enhancer.extract_slots_from_message`), intent classification and
response generation — are oracles passed in as `Except` values: `.error e`
models the call raising an exception with message `e`. Control flow,
memory mutation order and the `except` branch follow the source; note that
the merge on line 87 of the source sits at the outer indentation level and
therefore runs after every intent branch. The `recCtxShown` flag models
`recommendations_context.get("recommendations_shown")` being truthy. -/
def handle_turn (extract : Except String Store)
    (classify : Except String (String × ℚ))
    (respond : Except String RespData)
    (now : String) (recCtxShown : Bool)
    (user_utterance : String) (st : AgentState) : TurnResponse × AgentState :=
  match extract with
  | .error e => (_enhanced_error_response e, st)
  | .ok slots_extracted =>
    let user_intent : Option Val := extracted_user_intent slots_extracted
    let slot_values := slots_extracted.filter (fun kv => kv.1 ≠ "user_intent")
    let mem1 :=
      if user_intent = some (.str "new_query") then
        let m := memory_clear st.memory
        { m with slots := replace_all_slots m.slots slot_values }
      else if user_intent = some (.str "slot_updation") then
        { st.memory with slots := update_slots_preserving_context st.memory.slots slot_values }
      else st.memory
    let recShown1 := if user_intent = some (.str "new_query") then false else st.recommendations_shown
    let mem2 := { mem1 with slots := update_slots_preserving_context mem1.slots slot_values }
    let updated_slots := mem2.slots
    match classify with
    | .error e =>
        (_enhanced_error_response e,
          { st with memory := mem2, recommendations_shown := recShown1 })
    | .ok (intent, confidence) =>
      match respond with
      | .error e =>
          (_enhanced_error_response e,
            { st with memory := mem2, recommendations_shown := recShown1 })
      | .ok response_data =>
        let questions1 :=
          if response_data.question_history ≠ [] then response_data.question_history
          else st.questions_asked
        let action :=
          _determine_enhanced_action (get_filled_slots mem2.slots) response_data user_utterance
        let complete_response : TurnResponse :=
          { action := action,
            response := response_data.response_text,
            next_questions := response_data.next_questions,
            slots_updated := updated_slots,
            all_slots := display_all_slots mem2.slots,
            intent := intent,
            confidence := confidence,
            conversation_turn := st.conversation_flow.length + 1,
            conversation_continues := true,
            error := none,
            post_recommendation := recCtxShown }
        let recShown2 := if recCtxShown then true else recShown1
        let flow_entry : FlowEntry :=
          { turn := st.conversation_flow.length + 1,
            user_input := user_utterance,
            action := action,
            slots_extracted := slots_extracted,
            response_preview := preview50 response_data.response_text }
        let mem3 :=
          add_turn mem2 now user_utterance complete_response.response intent confidence
            updated_slots
        (complete_response,
          { memory := mem3,
            conversation_flow := st.conversation_flow ++ [flow_entry],
            questions_asked := questions1,
            recommendations_shown := recShown2 })

/-! ### query_enhancer.py: base semantic query construction -/

/-- Python `f"{v}"` of a slot value known to be present. -/
def pyStrVal : Val → String
  | .str t => t
  | .int n => toString n

/-- Embeds `OpenAIQueryEnhancer._construct_semantic_query` (query_enhancer.py
352-378). The `intent` argument is accepted and unused, as in the source;
values are joined with `" ".join` (the slots involved hold strings). -/
def _construct_semantic_query (filled_slots : Store) (_intent : String) : String :=
  let qp1 : List Val :=
    if truthy (pyGet filled_slots "cuisine_1") then
      [(pyGet filled_slots "cuisine_1").getD (.str "")] else []
  let qp2 : List Val :=
    if truthy (pyGet filled_slots "cuisine_2") ∧
        pyGet filled_slots "cuisine_2" ≠ pyGet filled_slots "cuisine_1" then
      qp1 ++ [(pyGet filled_slots "cuisine_2").getD (.str "")] else qp1
  let qp3 : List Val :=
    if truthy (pyGet filled_slots "item_name") then
      qp2 ++ [(pyGet filled_slots "item_name").getD (.str "")] else qp2
  let qp4 : List Val :=
    if truthy (pyGet filled_slots "label") then
      qp3 ++ [(pyGet filled_slots "label").getD (.str "")] else qp3
  let qp5 : List Val :=
    if truthy (pyGet filled_slots "meal_type") then
      qp4 ++ [(pyGet filled_slots "meal_type").getD (.str "")] else qp4
  let qp6 : List Val := if qp5 = [] then [.str "food"] else qp5
  String.intercalate " " (qp6.map pyStrVal)

/-- The spec's description of the base semantic query, written from the
spec sentence: the space-join of the non-empty values of `cuisine_1`,
`cuisine_2` (only if different from `cuisine_1`), `item_name`, `label`,
`meal_type`, in that fixed order, defaulting to the literal `"food"` when
all are empty. -/
def spec_semantic_query (filled_slots : Store) : String :=
  let parts : List Val :=
    (if truthy (pyGet filled_slots "cuisine_1") then
      [(pyGet filled_slots "cuisine_1").getD (.str "")] else []) ++
    (if truthy (pyGet filled_slots "cuisine_2") ∧
        pyGet filled_slots "cuisine_2" ≠ pyGet filled_slots "cuisine_1" then
      [(pyGet filled_slots "cuisine_2").getD (.str "")] else []) ++
    (if truthy (pyGet filled_slots "item_name") then
      [(pyGet filled_slots "item_name").getD (.str "")] else []) ++
    (if truthy (pyGet filled_slots "label") then
      [(pyGet filled_slots "label").getD (.str "")] else []) ++
    (if truthy (pyGet filled_slots "meal_type") then
      [(pyGet filled_slots "meal_type").getD (.str "")] else [])
  if parts = [] then "food" else String.intercalate " " (parts.map pyStrVal)

/-! ### rerank.py: JSON response parsing and deterministic fallback -/

/-- The literal pattern of the `re.search` call in `_parse_json_response`
(rerank.py line 180): six consecutive backtick characters, a pattern with
no capture groups. -/
def sixBackticks : String := "\x60\x60\x60\x60\x60\x60"

def openBrace : Char := Char.ofNat 123

def closeBrace : Char := Char.ofNat 125

/-- Python `s.find(c)` as an `Option` (Python returns `-1` for `none`). -/
def firstIdxOf (c : Char) (s : String) : Option Nat := s.toList.indexOf? c

/-- Python `s.rfind(c)` as an `Option`. -/
def lastIdxOf (c : Char) (s : String) : Option Nat :=
  (s.toList.reverse.indexOf? c).map (fun i => s.toList.length - 1 - i)

/-- Python slice `s[a:b]` for `0 ≤ a, b` (empty when `b ≤ a`). -/
def substrRange (s : String) (a b : Nat) : String :=
  String.mk ((s.toList.drop a).take (b - a))

/-- Result of `_parse_json_response`: either whatever `json.loads`
produced, or the structured error dict with keys `error`, `raw_content`
and `parse_error`. -/
inductive PJResult (α : Type) where
  | parsed : α → PJResult α
  | errObj : (error : String) → (raw_content : String) → (parse_error : String) → PJResult α
deriving DecidableEq, Repr

/-- Embeds `TwoStageContextualRerankerJSON._parse_json_response` (rerank.py
167-199). `json.loads` is the standard library and is modelled as the
oracle `loads` (`.error e` = `json.JSONDecodeError` with message `e`).
Faithful control flow: direct parse; on failure
`re.search(r'``````', content)` (six literal backticks, no groups) — when
it matches, `.group(1)` raises `IndexError`, which the inner
`except Exception` catches, skipping the brace-span attempt; otherwise the
span from the first brace to one past the last brace is parsed; any
remaining failure yields the error dict built from the original decode
error `e`. -/
def _parse_json_response {α : Type} (loads : String → Except String α)
    (response_content : String) (stage : String) : PJResult α :=
  match loads response_content with
  | .ok j => .parsed j
  | .error e =>
    if strContains response_content sixBackticks then
      .errObj (stage ++ " JSON parsing failed") response_content e
    else
      match firstIdxOf openBrace response_content with
      | none => .errObj (stage ++ " JSON parsing failed") response_content e
      | some json_start =>
          let json_end := ((lastIdxOf closeBrace response_content).map (· + 1)).getD 0
          let json_str := substrRange response_content json_start json_end
          match loads json_str with
          | .ok j => .parsed j
          | .error _ => .errObj (stage ++ " JSON parsing failed") response_content e

/-- The metadata fields of a retrieved document that
`_fallback_reranking` reads; ratings and prices are rationals (exact
stand-ins for the Python floats). -/
structure Meta where
  food : Option String
  f_rating : Option ℚ
  f_price : Option ℚ
deriving DecidableEq, Repr

structure Doc where
  id : Option String
  metadata : Meta
deriving DecidableEq, Repr

/-- The fallback score (rerank.py 255-259):
`f_rating / max((f_price / 100), 1)` with `metadata.get` defaults `0` and
`1000`. -/
def fallback_score (doc : Doc) : ℚ :=
  let f_rating := doc.metadata.f_rating.getD 0
  let f_price := doc.metadata.f_price.getD 1000
  f_rating / max (f_price / 100) 1

/-- Embeds `scored_docs.sort(key=lambda x: x["score"], reverse=True)` (rerank.py
267): stable descending sort by score. -/
def fallback_sorted (documents : List Doc) : List Doc :=
  documents.mergeSort (fun a b => decide (fallback_score b ≤ fallback_score a))

/-- Fixed-point rendering of the score for the f-string
`f"...({scored_doc['score']:.2f})..."`; two decimals, round-half-up model
of Python's float formatting (no claim depends on the digits). -/
def fmt2 (q : ℚ) : String :=
  let cents : Int := ⌊q * 100 + 1 / 2⌋
  let sign := if cents < 0 then "-" else ""
  let a := cents.natAbs
  sign ++ toString (a / 100) ++ "." ++ (if a % 100 < 10 then "0" else "") ++ toString (a % 100)

/-- The fallback rationale string (rerank.py line 285). -/
def fallback_reasoning (score : ℚ) : String :=
  "Fallback ranking based on rating-price ratio (" ++ fmt2 score ++ ") due to API error."

/-- One entry of the fallback `top_10_documents` list (rerank.py 275-286);
the four tier booleans are the `score` sub-dict. -/
structure RankedEntry where
  rank : Nat
  doc_id : String
  food_name : String
  score_critical : Bool
  score_high : Bool
  score_medium : Bool
  score_low : Bool
  reasoning : String
deriving DecidableEq, Repr

/-- Entry built for the document at 1-based rank `i` (rerank.py 271-286). -/
def mk_fallback_entry (i : Nat) (doc : Doc) : RankedEntry :=
  { rank := i,
    doc_id := doc.id.getD ("doc_" ++ toString i),
    food_name := doc.metadata.food.getD "Unknown",
    score_critical := false,
    score_high := false,
    score_medium := false,
    score_low := false,
    reasoning := fallback_reasoning (fallback_score doc) }

/-- The `top_10_documents` list of the fallback response:
`enumerate(scored_docs[:10], 1)` over the descending-sorted documents. -/
def top_10_fallback (documents : List Doc) : List RankedEntry :=
  ((fallback_sorted documents).take 10).enum.map (fun p => mk_fallback_entry (p.1 + 1) p.2)

/-- The full dict returned by
`TwoStageContextualRerankerJSON._fallback_reranking` (rerank.py 288-306);
the constant `ranking_conditions` entry is summarized by its fixed
`measurable_criteria` string. A total function: the fallback path never
raises. -/
structure FallbackResult where
  stage1_analysis_error : String
  stage2_ranking_error : String
  final_combined_query : String
  temporal_context : String
  user_journey : String
  ranking_criteria : String
  top_10_documents : List RankedEntry
  qa_status : String
deriving DecidableEq, Repr

def _fallback_reranking (documents : List Doc) (_conversation_history : List Store) :
    FallbackResult :=
  { stage1_analysis_error := "Stage 1 failed",
    stage2_ranking_error := "Stage 2 failed",
    final_combined_query := "fallback query from conversation",
    temporal_context := "fallback_context",
    user_journey := "error_recovery",
    ranking_criteria := "f_rating / (f_price/100)",
    top_10_documents := top_10_fallback documents,
    qa_status := "fallback_mode" }

/-! ### Concrete fixtures used by witnesses and counterexamples -/

/-- The agent before any turn (conversation_agent.py 25-38). -/
def agent_state0 : AgentState :=
  { memory := initial_memory, conversation_flow := [], questions_asked := [],
    recommendations_shown := false }

def classify_ok0 : Except String (String × ℚ) := .ok ("recommend", 9 / 10)

/-- A concrete `ResponseGenerator.generate` result. -/
def respdata0 : RespData :=
  { response_text := "ok", next_questions := [], action := "ASK", question_history := [] }

def respond_ok0 : Except String RespData := .ok respdata0

/-- A filled-slot store `{dietary: "veg", price: 300}` from the spec's
examples. -/
def filled_veg300 : Store :=
  [("dietary", some (.str "veg")), ("price", some (.int 300))]

/-- Document with rating 4.5 and price 100 (spec's fallback example). -/
def doc_ex1 : Doc :=
  { id := some "d1", metadata := { food := some "dish1", f_rating := some (9 / 2), f_price := some 100 } }

/-- Document with rating 4.0 and price 500 (spec's fallback example). -/
def doc_ex2 : Doc :=
  { id := some "d2", metadata := { food := some "dish2", f_rating := some 4, f_price := some 500 } }

/-- A concrete stand-in for `json.loads`, agreeing with the real
`json.loads` on the two strings the C8 evaluation feeds it: the brace-span
`{"a": 1}` is valid JSON, everything else used is not. -/
def loads_stub : String → Except String Unit := fun s =>
  if s = "\x7b\"a\": 1\x7d" then .ok ()
  else .error "Expecting value: line 1 column 1 (char 0)"

/-- A stage response whose fenced code block is empty (six consecutive
backticks) followed by a valid JSON object: direct parse fails, the
malformed fenced-block regex matches and `.group(1)` raises, and the
brace-span attempt is skipped. -/
def c8_failing_input : String := "Result: \x60\x60\x60\x60\x60\x60\n\x7b\"a\": 1\x7d"

/-- The same response without the six-backtick run: the brace-span attempt
runs and succeeds. -/
def c8_contrast_input : String := "Result: \n\x7b\"a\": 1\x7d"

/-! ### Association-list (Python dict) lemmas -/

theorem dictGet_dictSet_self (s : Store) (k : String) (v : Option Val) :
    dictGet (dictSet s k v) k = some v := by
  induction s with
  | nil => simp [dictGet, dictSet]
  | cons hd tl ih =>
      obtain ⟨k', v'⟩ := hd
      by_cases h : k' = k <;> simp [dictGet, dictSet, h, ih]

theorem dictGet_dictSet_ne (s : Store) (k k' : String) (v : Option Val)
    (h : k' ≠ k) : dictGet (dictSet s k v) k' = dictGet s k' := by
  have hk : ¬k = k' := fun hh => h hh.symm
  induction s with
  | nil => simp [dictGet, dictSet, hk]
  | cons hd tl ih =>
      obtain ⟨k₀, v₀⟩ := hd
      by_cases h0 : k₀ = k
      · subst h0
        simp [dictGet, dictSet, hk]
      · by_cases h1 : k₀ = k' <;> simp [dictGet, dictSet, h0, h1, h, ih]

theorem dictGet_eq_none_of_not_mem (s : Store) (k : String)
    (h : k ∉ s.map Prod.fst) : dictGet s k = none := by
  induction s with
  | nil => rfl
  | cons hd tl ih =>
      obtain ⟨k₀, v₀⟩ := hd
      simp only [List.map_cons, List.mem_cons] at h
      push_neg at h
      have hne : ¬k₀ = k := fun hh => h.1 hh.symm
      simp [dictGet, hne, ih h.2]

/-- Characterization of a guarded overwrite fold (the common shape of
`update_slots_preserving_context` and the second loop of
`replace_all_slots`) on a delta without duplicate keys. -/
theorem foldl_guardSet_get (P : String × Option Val → Prop) [DecidablePred P]
    (delta : Store) (s : Store) (k : String)
    (hnd : (delta.map Prod.fst).Nodup) :
    dictGet (delta.foldl (fun acc kv => if P kv then dictSet acc kv.1 kv.2 else acc) s) k =
      match dictGet delta k with
      | some v => if P (k, v) then some v else dictGet s k
      | none => dictGet s k := by
  induction delta generalizing s with
  | nil => rfl
  | cons hd tl ih =>
      obtain ⟨k₀, v₀⟩ := hd
      simp only [List.map_cons, List.nodup_cons] at hnd
      by_cases hk : k₀ = k
      · subst hk
        have htl : dictGet tl k₀ = none := dictGet_eq_none_of_not_mem _ _ hnd.1
        simp only [List.foldl_cons, dictGet, if_pos rfl]
        rw [ih _ hnd.2, htl]
        by_cases hp : P (k₀, v₀)
        · simp [hp, dictGet_dictSet_self]
        · simp [hp]
      · simp only [List.foldl_cons, dictGet, if_neg hk]
        rw [ih _ hnd.2]
        by_cases hp : P (k₀, v₀) <;>
          cases h : dictGet tl k <;>
            simp [hp, h, dictGet_dictSet_ne _ _ _ _ (fun h' => hk h'.symm)]

theorem foldl_setNone_get (ks : List String) (s : Store) (k : String) :
    dictGet (ks.foldl (fun acc k' => dictSet acc k' none) s) k =
      if k ∈ ks then some none else dictGet s k := by
  induction ks generalizing s with
  | nil => simp
  | cons k₀ tl ih =>
      simp only [List.foldl_cons]
      rw [ih]
      by_cases h : k ∈ tl
      · simp [h]
      · by_cases h0 : k = k₀
        · subst h0
          simp [h, dictGet_dictSet_self]
        · simp [h, h0, dictGet_dictSet_ne _ _ _ _ h0]

/-- Per-key behaviour of `update_slots_preserving_context`. -/
theorem update_slots_preserving_context_get (s delta : Store) (k : String)
    (hnd : (delta.map Prod.fst).Nodup) :
    dictGet (update_slots_preserving_context s delta) k =
      match dictGet delta k with
      | some v => if k ≠ "user_intent" ∧ v ≠ none then some v else dictGet s k
      | none => dictGet s k := by
  exact foldl_guardSet_get (fun kv => kv.1 ≠ "user_intent" ∧ kv.2 ≠ none) delta s k hnd

/-- Per-key behaviour of `replace_all_slots`. -/
theorem replace_all_slots_get (s delta : Store) (k : String)
    (hnd : (delta.map Prod.fst).Nodup) :
    dictGet (replace_all_slots s delta) k =
      match dictGet delta k with
      | some v =>
          if k ∈ SLOT_KEYS ∧ v ≠ none then some v
          else if k ∈ SLOT_KEYS then some none else dictGet s k
      | none => if k ∈ SLOT_KEYS then some none else dictGet s k := by
  show dictGet (delta.foldl _ (SLOT_KEYS.foldl _ s)) k = _
  rw [foldl_guardSet_get (fun kv => kv.1 ∈ SLOT_KEYS ∧ kv.2 ≠ none) delta _ k hnd,
    foldl_setNone_get]

theorem dictGet_mem (s : Store) (k : String) (v : Option Val)
    (h : dictGet s k = some v) : (k, v) ∈ s := by
  induction s with
  | nil => simp [dictGet] at h
  | cons hd tl ih =>
      obtain ⟨k₀, v₀⟩ := hd
      by_cases h0 : k₀ = k
      · subst h0
        simp [dictGet] at h
        simp [h]
      · simp [dictGet, h0] at h
        exact List.mem_cons_of_mem _ (ih h)

theorem keys_dictSet_of_mem (s : Store) (k : String) (v : Option Val)
    (h : k ∈ s.map Prod.fst) : (dictSet s k v).map Prod.fst = s.map Prod.fst := by
  induction s with
  | nil => simp at h
  | cons hd tl ih =>
      obtain ⟨k₀, v₀⟩ := hd
      by_cases h0 : k₀ = k
      · simp [dictSet, h0]
      · simp only [List.map_cons, List.mem_cons] at h
        rcases h with h | h
        · exact absurd h.symm h0
        · simp [dictSet, h0, ih h]

theorem foldl_guardSet_keys (P : String × Option Val → Prop) [DecidablePred P]
    (delta : Store) (s : Store)
    (h : ∀ kv ∈ delta, P kv → kv.1 ∈ s.map Prod.fst) :
    (delta.foldl (fun acc kv => if P kv then dictSet acc kv.1 kv.2 else acc) s).map Prod.fst
      = s.map Prod.fst := by
  induction delta generalizing s with
  | nil => rfl
  | cons hd tl ih =>
      simp only [List.foldl_cons]
      by_cases hp : P hd
      · rw [if_pos hp]
        have hkeys := keys_dictSet_of_mem s hd.1 hd.2 (h hd (List.mem_cons_self _ _) hp)
        rw [ih (dictSet s hd.1 hd.2) (fun kv hkv hpkv => by
          rw [hkeys]; exact h kv (List.mem_cons_of_mem _ hkv) hpkv), hkeys]
      · rw [if_neg hp]
        exact ih s (fun kv hkv hpkv => h kv (List.mem_cons_of_mem _ hkv) hpkv)

theorem foldl_setNone_keys (ks : List String) (s : Store)
    (h : ∀ k ∈ ks, k ∈ s.map Prod.fst) :
    (ks.foldl (fun acc k => dictSet acc k none) s).map Prod.fst = s.map Prod.fst := by
  induction ks generalizing s with
  | nil => rfl
  | cons k₀ tl ih =>
      simp only [List.foldl_cons]
      have hkeys := keys_dictSet_of_mem s k₀ none (h k₀ (List.mem_cons_self _ _))
      rw [ih (dictSet s k₀ none) (fun k hk => by
        rw [hkeys]; exact h k (List.mem_cons_of_mem _ hk)), hkeys]

/-! ### Claim theorems -/

/-- C4: for every slot store and delta, `update_slots_preserving_context`
overwrites exactly the keys whose delta value is non-null (excluding the
intent marker `"user_intent"`) and leaves every key whose delta value is
null or absent unchanged; merging `{a: null, b: "x"}` into
`{a: "keepme", b: null}` yields `{a: "keepme", b: "x"}` — nulls never
erase. -/
theorem C4_merge_nulls_never_erase :
    (∀ (s delta : Store) (k : String), (delta.map Prod.fst).Nodup →
      pyGet (update_slots_preserving_context s delta) k =
        match dictGet delta k with
        | some (some v) => if k = "user_intent" then pyGet s k else some v
        | _ => pyGet s k) ∧
    update_slots_preserving_context
        [("a", some (.str "keepme")), ("b", none)] [("a", none), ("b", some (.str "x"))]
      = [("a", some (.str "keepme")), ("b", some (.str "x"))] := by
  refine ⟨fun s delta k hnd => ?_, by decide⟩
  show (dictGet _ _).getD none = _
  rw [update_slots_preserving_context_get s delta k hnd]
  cases h : dictGet delta k with
  | none => rfl
  | some v =>
      cases v with
      | none => simp [pyGet]
      | some w => by_cases hu : k = "user_intent" <;> simp [pyGet, hu]

/-- Witness for C4 at the spec's own example. -/
theorem C4_merge_nulls_never_erase_witness :
    pyGet (update_slots_preserving_context
      [("a", some (.str "keepme")), ("b", none)] [("a", none), ("b", some (.str "x"))]) "b"
      = some (.str "x") := by
  have h := C4_merge_nulls_never_erase.1
    [("a", some (.str "keepme")), ("b", none)] [("a", none), ("b", some (.str "x"))] "b"
    (by decide)
  simpa [dictGet] using h

/-- C5: `replace_all_slots` first nulls every recognized slot, then applies
exactly the recognized keys present with non-null values in the delta;
afterwards every recognized slot is null except those keys, and keys
outside the recognized set are not touched by the delta application. -/
theorem C5_replace_all_semantics :
    ∀ (s delta : Store), (delta.map Prod.fst).Nodup →
      (∀ k, k ∈ SLOT_KEYS →
        pyGet (replace_all_slots s delta) k =
          match dictGet delta k with
          | some (some v) => some v
          | _ => none) ∧
      (∀ k, k ∉ SLOT_KEYS → dictGet (replace_all_slots s delta) k = dictGet s k) := by
  intro s delta hnd
  constructor
  · intro k hk
    show (dictGet _ _).getD none = _
    rw [replace_all_slots_get s delta k hnd]
    cases h : dictGet delta k with
    | none => simp [hk]
    | some v =>
        cases v with
        | none => simp [hk]
        | some w => simp [hk]
  · intro k hk
    rw [replace_all_slots_get s delta k hnd]
    cases h : dictGet delta k with
    | none => simp [hk]
    | some v => simp [hk]

/-- Witness for C5: `replace_all_slots` of `{cuisine_1: "x"}` on the store
`{dietary: "veg", price: 300}` sets `cuisine_1` and nulls `dietary`. -/
theorem C5_replace_all_semantics_witness :
    pyGet (replace_all_slots filled_veg300 [("cuisine_1", some (.str "x"))]) "cuisine_1"
        = some (.str "x") ∧
    pyGet (replace_all_slots filled_veg300 [("cuisine_1", some (.str "x"))]) "dietary"
        = none := by
  have h := C5_replace_all_semantics filled_veg300 [("cuisine_1", some (.str "x"))] (by decide)
  exact ⟨by simpa [dictGet] using h.1 "cuisine_1" (by decide),
         by simpa [dictGet] using h.1 "dietary" (by decide)⟩

/-- C10: `get_missing_slots` returns exactly the recognized slots whose
value is falsy, `get_filled_slots` exactly the entries with non-`None`
values; a slot holding `""` is simultaneously missing and filled, and the
two partition the recognized slots only when every set value is truthy. -/
theorem C10_missing_filled_semantics :
    (∀ (s : Store) (k : String),
      k ∈ get_missing_slots s ↔ k ∈ SLOT_KEYS ∧ truthy (pyGet s k) = false) ∧
    (∀ (s : Store) (kv : String × Option Val),
      kv ∈ get_filled_slots s ↔ kv ∈ s ∧ kv.2 ≠ none) ∧
    ("cuisine_1" ∈ get_missing_slots (dictSet initial_slots "cuisine_1" (some (.str ""))) ∧
      ("cuisine_1", some (.str ""))
        ∈ get_filled_slots (dictSet initial_slots "cuisine_1" (some (.str "")))) ∧
    (∀ s : Store, (∀ kv ∈ s, kv.2 ≠ none → truthy kv.2 = true) →
      ∀ k ∈ SLOT_KEYS, (k ∈ get_missing_slots s ↔ pyGet s k = none)) := by
  have hmiss : ∀ (s : Store) (k : String),
      k ∈ get_missing_slots s ↔ k ∈ SLOT_KEYS ∧ truthy (pyGet s k) = false := by
    intro s k
    simp [get_missing_slots, List.mem_filter]
  refine ⟨hmiss, ?_, by decide, ?_⟩
  · intro s kv
    simp [get_filled_slots, List.mem_filter]
  · intro s hall k hk
    rw [hmiss]
    constructor
    · rintro ⟨-, hfalse⟩
      cases hval : pyGet s k with
      | none => rfl
      | some v =>
          have hd : dictGet s k = some (some v) := by
            unfold pyGet at hval
            cases hdg : dictGet s k with
            | none => rw [hdg] at hval; simp at hval
            | some w => rw [hdg] at hval; simp at hval; rw [hval]
          have hmem := dictGet_mem s k (some v) hd
          have := hall (k, some v) hmem (by simp)
          rw [hval] at hfalse
          simp at this
          rw [this] at hfalse
          cases hfalse
    · intro hnone
      exact ⟨hk, by rw [hnone]; rfl⟩

/-- Witness for C10 at a concrete store holding `""` in `cuisine_1`. -/
theorem C10_missing_filled_semantics_witness :
    ("cuisine_1" ∈ get_missing_slots (dictSet initial_slots "cuisine_1" (some (.str "")))
      ↔ "cuisine_1" ∈ SLOT_KEYS ∧
        truthy (pyGet (dictSet initial_slots "cuisine_1" (some (.str ""))) "cuisine_1") = false) ∧
    ("dietary" ∈ get_missing_slots filled_veg300 ↔ pyGet filled_veg300 "dietary" = none) := by
  exact ⟨C10_missing_filled_semantics.1 _ "cuisine_1",
    C10_missing_filled_semantics.2.2.2 filled_veg300 (by decide) "dietary" (by decide)⟩

/-- C3 counterexample: the Slot Store is corrupted by a merge delta with an
unrecognized key (`update_slots_preserving_context` inserts `"bogus"`), and
an out-of-domain value for a recognized slot is stored by `update_slot`
rather than rejected. -/
theorem C3_counterexample :
    dictGet (update_slots_preserving_context initial_slots [("bogus", some (.str "x"))]) "bogus"
        = some (some (.str "x")) ∧
    "bogus" ∉ SLOT_KEYS ∧
    (update_slot initial_slots "dietary" (some (.str "pizza"))).2 = true ∧
    pyGet (update_slot initial_slots "dietary" (some (.str "pizza"))).1 "dietary"
        = some (.str "pizza") ∧
    inDomain "dietary" (.str "pizza") = false := by decide

/-- C3 amended: `update_slot` rejects unrecognized keys (store unchanged,
`false` returned) but stores any value for a recognized key without domain
validation; `replace_all_slots` and `clear`/`__init__` keep the key set
exactly the recognized slots; `update_slots_preserving_context` preserves
the key set only when every applied delta key is recognized. -/
theorem C3_amended_store_invariants :
    (∀ (s : Store) (k : String) (v : Option Val),
      k ∉ SLOT_KEYS → update_slot s k v = (s, false)) ∧
    (∀ (s : Store) (k : String) (v : Option Val),
      k ∈ SLOT_KEYS → update_slot s k v = (dictSet s k v, true)) ∧
    (∀ s delta : Store, s.map Prod.fst = SLOT_KEYS →
      (∀ kv ∈ delta, kv.1 ≠ "user_intent" → kv.2 ≠ none → kv.1 ∈ SLOT_KEYS) →
      (update_slots_preserving_context s delta).map Prod.fst = SLOT_KEYS) ∧
    (∀ s delta : Store, s.map Prod.fst = SLOT_KEYS →
      (replace_all_slots s delta).map Prod.fst = SLOT_KEYS) ∧
    clear_slots.map Prod.fst = SLOT_KEYS ∧
    initial_slots.map Prod.fst = SLOT_KEYS := by
  refine ⟨?_, ?_, ?_, ?_, by decide, by decide⟩
  · intro s k v hk
    simp [update_slot, hk]
  · intro s k v hk
    simp [update_slot, hk]
  · intro s delta hs hdelta
    unfold update_slots_preserving_context
    rw [foldl_guardSet_keys _ delta s (fun kv hkv hp => by
      rw [hs]; exact hdelta kv hkv hp.1 hp.2), hs]
  · intro s delta hs
    unfold replace_all_slots
    have hcleared :
        ((SLOT_KEYS.foldl (fun acc k => dictSet acc k none) s).map Prod.fst) = SLOT_KEYS := by
      rw [foldl_setNone_keys SLOT_KEYS s (fun k hk => by rw [hs]; exact hk), hs]
    rw [foldl_guardSet_keys _ delta _ (fun kv hkv hp => by rw [hcleared]; exact hp.1), hcleared]

/-- Witness for C3 amended at concrete inputs. -/
theorem C3_amended_store_invariants_witness :
    update_slot initial_slots "bogus" (some (.str "x")) = (initial_slots, false) ∧
    (replace_all_slots initial_slots [("cuisine_1", some (.str "x"))]).map Prod.fst
      = SLOT_KEYS := by
  exact ⟨C3_amended_store_invariants.1 initial_slots "bogus" (some (.str "x")) (by decide),
    C3_amended_store_invariants.2.2.2.1 initial_slots [("cuisine_1", some (.str "x"))]
      (by decide)⟩

/-- C1: the action decision from filled slots and raw utterance: `SEARCH`
iff both `dietary` and `price` are non-null and the lowercased utterance is
one of the fixed confirmation tokens; `ASK_SEARCH_CONFIRMATION` iff both
are non-null otherwise; `ASK` otherwise — with the spec's two examples. -/
theorem C1_action_decision :
    (∀ (filled : Store) (rd : RespData) (msg : String),
      _determine_enhanced_action filled rd msg =
        if (pyGet filled "dietary").isSome ∧ (pyGet filled "price").isSome then
          if pyLower msg ∈ confirm_tokens then "SEARCH" else "ASK_SEARCH_CONFIRMATION"
        else "ASK") ∧
    _determine_enhanced_action filled_veg300 respdata0 "yes" = "SEARCH" ∧
    _determine_enhanced_action filled_veg300 respdata0 "tell me more"
      = "ASK_SEARCH_CONFIRMATION" := by
  refine ⟨fun filled rd msg => ?_, by decide, by decide⟩
  unfold _determine_enhanced_action
  by_cases hd : (pyGet filled "dietary").isSome = true <;>
    by_cases hp : (pyGet filled "price").isSome = true <;>
      by_cases ht : pyLower msg ∈ confirm_tokens <;>
        simp [hd, hp, ht]

/-- C6: when `dietary` is unset and the utterance contains a phrase from
the "no restrictions" set, the systematic state is `NEED_PRICE`, not
`NEED_DIETARY`; the decision is a pure function returning only a state
string, so it sets no dietary value. -/
theorem C6_no_restrictions_skips_to_price :
    ∀ (filled : Store) (msg : String),
      pyGet filled "dietary" = none →
      (no_restriction_phrases.any (fun p => strContains (pyLower msg) p)) = true →
      _determine_systematic_state filled msg = NEED_PRICE ∧
        _determine_systematic_state filled msg ≠ NEED_DIETARY := by
  intro filled msg hd hphrase
  have hstate : _determine_systematic_state filled msg = NEED_PRICE := by
    unfold _determine_systematic_state
    rw [hd]
    simp [hphrase]
  exact ⟨hstate, by rw [hstate]; decide⟩

/-- Witness for C6: empty store, utterance "no restrictions". -/
theorem C6_no_restrictions_skips_to_price_witness :
    _determine_systematic_state initial_slots "no restrictions" = NEED_PRICE :=
  (C6_no_restrictions_skips_to_price initial_slots "no restrictions"
    (by decide) (by decide)).1

/-- C7: the base semantic query is the space-join of the non-empty values
of `cuisine_1`, `cuisine_2` (only if different from `cuisine_1`),
`item_name`, `label`, `meal_type` in that fixed order, defaulting to
`"food"` when all are empty — shown by refinement against the spec-side
definition, plus the spec's example. -/
theorem C7_base_semantic_query :
    (∀ (filled : Store) (intent : String),
      _construct_semantic_query filled intent = spec_semantic_query filled) ∧
    _construct_semantic_query
        [("cuisine_1", some (.str "biryani")), ("item_name", some (.str "dum biryani"))]
        "recommend"
      = "biryani dum biryani" ∧
    _construct_semantic_query [] "recommend" = "food" := by
  refine ⟨fun filled intent => ?_, by decide, by decide⟩
  unfold _construct_semantic_query spec_semantic_query
  by_cases c1 : truthy (pyGet filled "cuisine_1") = true <;>
    by_cases c2 : truthy (pyGet filled "cuisine_2") = true ∧
        pyGet filled "cuisine_2" ≠ pyGet filled "cuisine_1" <;>
      by_cases c3 : truthy (pyGet filled "item_name") = true <;>
        by_cases c4 : truthy (pyGet filled "label") = true <;>
          by_cases c5 : truthy (pyGet filled "meal_type") = true <;>
            simp [c1, c2, c3, c4, c5, pyStrVal, String.intercalate]
  rfl

/-- C2 counterexample: at a concrete turn whose slot extraction raises
(`extract = .error "boom"`), `handle_turn` returns the fixed apologetic
`CONTINUE` response, but the conversation history is left empty — no turn
recording the error response is appended, refuting the claim that "the
conversation history still has a turn appended". -/
theorem C2_counterexample :
    (handle_turn (.error "boom") classify_ok0 respond_ok0 "t0" false "hello" agent_state0).1
        = _enhanced_error_response "boom" ∧
    (_enhanced_error_response "boom").action = "CONTINUE" ∧
    ((handle_turn (.error "boom") classify_ok0 respond_ok0 "t0" false "hello"
        agent_state0).2).memory.history = [] := by
  exact ⟨rfl, rfl, rfl⟩

/-- C2 amended: any exception in the extraction / classification /
response-generation chain is converted to the fixed apologetic `CONTINUE`
response, but NO turn is appended to the conversation history for that
exchange (the history is either untouched or, when the turn had already
cleared memory for a new query, empty): the failed turn is lost. -/
theorem C2_amended_error_turn_not_recorded :
    ∀ (extract : Except String Store) (classify : Except String (String × ℚ))
      (respond : Except String RespData) (now : String) (rc : Bool)
      (msg : String) (st : AgentState),
      (∀ e, extract = .error e →
        handle_turn extract classify respond now rc msg st
          = (_enhanced_error_response e, st)) ∧
      (∀ e d, extract = .ok d → classify = .error e →
        (handle_turn extract classify respond now rc msg st).1 = _enhanced_error_response e ∧
          ((handle_turn extract classify respond now rc msg st).2.memory.history
              = st.memory.history ∨
            (handle_turn extract classify respond now rc msg st).2.memory.history = [])) ∧
      (∀ e d ic, extract = .ok d → classify = .ok ic → respond = .error e →
        (handle_turn extract classify respond now rc msg st).1 = _enhanced_error_response e ∧
          ((handle_turn extract classify respond now rc msg st).2.memory.history
              = st.memory.history ∨
            (handle_turn extract classify respond now rc msg st).2.memory.history = [])) := by
  intro extract classify respond now rc msg st
  refine ⟨?_, ?_, ?_⟩
  · rintro e rfl
    rfl
  · rintro e d rfl rfl
    refine ⟨rfl, ?_⟩
    dsimp only [handle_turn]
    by_cases hA : extracted_user_intent d = some (Val.str "new_query")
    · right
      simp [hA, memory_clear]
    · by_cases hB : extracted_user_intent d = some (Val.str "slot_updation") <;>
        · left
          simp [hA, hB]
  · rintro e d ic rfl rfl rfl
    refine ⟨?_, ?_⟩
    · obtain ⟨i, c⟩ := ic
      rfl
    · obtain ⟨i, c⟩ := ic
      dsimp only [handle_turn]
      by_cases hA : extracted_user_intent d = some (Val.str "new_query")
      · right
        simp [hA, memory_clear]
      · by_cases hB : extracted_user_intent d = some (Val.str "slot_updation") <;>
          · left
            simp [hA, hB]

/-- Witness for C2 amended at concrete failing turns. -/
theorem C2_amended_error_turn_not_recorded_witness :
    handle_turn (.error "x") classify_ok0 respond_ok0 "t" false "m" agent_state0
        = (_enhanced_error_response "x", agent_state0) ∧
    (handle_turn (.ok []) (.error "y") respond_ok0 "t" false "m" agent_state0).1
        = _enhanced_error_response "y" := by
  exact ⟨(C2_amended_error_turn_not_recorded (.error "x") classify_ok0 respond_ok0 "t"
      false "m" agent_state0).1 "x" rfl,
    ((C2_amended_error_turn_not_recorded (.ok []) (.error "y") respond_ok0 "t"
      false "m" agent_state0).2.1 "y" [] rfl rfl).1⟩

/-- C8: evaluation of the parsing chain. At `c8_failing_input` — a response
containing a six-backtick run followed by a valid JSON brace span — the
parser returns the error object even though the brace span parses
(`loads_stub` accepts it), because the malformed fenced-block regex
matches and its `.group(1)` raises, skipping the span attempt; without the
backtick run the same response parses via the span. In all cases the
result is either parsed JSON or the structured `error`/`raw_content`/
`parse_error` object — no exception escapes. -/
theorem C8_parse_json_response_eval :
    _parse_json_response loads_stub c8_failing_input "Stage 1"
        = .errObj "Stage 1 JSON parsing failed" c8_failing_input
            "Expecting value: line 1 column 1 (char 0)" ∧
    loads_stub "\x7b\"a\": 1\x7d" = .ok () ∧
    _parse_json_response loads_stub c8_contrast_input "Stage 1" = .parsed () ∧
    (∀ (α : Type) (loads : String → Except String α) (content stage : String),
      (∃ j, _parse_json_response loads content stage = .parsed j) ∨
        (∃ e, _parse_json_response loads content stage
            = .errObj (stage ++ " JSON parsing failed") content e)) := by
  refine ⟨by rfl, by rfl, by rfl, ?_⟩
  intro α loads content stage
  cases hl : loads content with
  | ok j => exact Or.inl ⟨j, by simp [_parse_json_response, hl]⟩
  | error e =>
      by_cases hb : strContains content sixBackticks = true
      · exact Or.inr ⟨e, by simp [_parse_json_response, hl, hb]⟩
      · cases hf : firstIdxOf openBrace content with
        | none => exact Or.inr ⟨e, by simp [_parse_json_response, hl, hb, hf]⟩
        | some js =>
            cases h2 : loads (substrRange content js
                (((lastIdxOf closeBrace content).map (· + 1)).getD 0)) with
            | ok j => exact Or.inl ⟨j, by simp [_parse_json_response, hl, hb, hf, h2]⟩
            | error e2 => exact Or.inr ⟨e, by simp [_parse_json_response, hl, hb, hf, h2]⟩

/-- C9: the deterministic fallback reranking scores each document
`rating / max(price/100, 1)`, sorts descending by that score, truncates to
10 entries with all four tier booleans false and the fallback rationale,
is non-empty whenever a document is supplied, is total (never raises), and
ranks the spec's example documents (4.5 at 100 above 4.0 at 500). -/
theorem C9_fallback_deterministic_reranking :
    (∀ d : Doc, fallback_score d
        = d.metadata.f_rating.getD 0 / max (d.metadata.f_price.getD 1000 / 100) 1) ∧
    (∀ docs : List Doc,
      List.Pairwise (fun a b => fallback_score b ≤ fallback_score a) (fallback_sorted docs)) ∧
    (∀ docs : List Doc, (fallback_sorted docs).Perm docs) ∧
    (∀ (docs : List Doc) (ch : List Store),
      (_fallback_reranking docs ch).top_10_documents = top_10_fallback docs) ∧
    (∀ docs : List Doc, (top_10_fallback docs).length = min 10 docs.length) ∧
    (∀ docs : List Doc, docs ≠ [] → top_10_fallback docs ≠ []) ∧
    (∀ (docs : List Doc) (e : RankedEntry), e ∈ top_10_fallback docs →
      e.score_critical = false ∧ e.score_high = false ∧ e.score_medium = false ∧
        e.score_low = false ∧ ∃ d ∈ docs, e.reasoning = fallback_reasoning (fallback_score d)) ∧
    fallback_sorted [doc_ex1, doc_ex2] = [doc_ex1, doc_ex2] ∧
    fallback_score doc_ex1 = 9 / 2 ∧ fallback_score doc_ex2 = 4 / 5 := by
  have htrans : ∀ a b c : Doc,
      decide (fallback_score b ≤ fallback_score a) = true →
      decide (fallback_score c ≤ fallback_score b) = true →
      decide (fallback_score c ≤ fallback_score a) = true := by
    intro a b c hab hbc
    simp only [decide_eq_true_eq] at hab hbc ⊢
    exact le_trans hbc hab
  have htotal : ∀ a b : Doc,
      (decide (fallback_score b ≤ fallback_score a)
        || decide (fallback_score a ≤ fallback_score b)) = true := by
    intro a b
    simp only [Bool.or_eq_true, decide_eq_true_eq]
    exact le_total _ _
  have hlen : ∀ docs : List Doc, (top_10_fallback docs).length = min 10 docs.length := by
    intro docs
    have hperm := List.mergeSort_perm docs
      (fun a b => decide (fallback_score b ≤ fallback_score a))
    simp [top_10_fallback, fallback_sorted, List.enum_length, List.length_take,
      hperm.length_eq]
  refine ⟨fun d => rfl, ?_, ?_, fun docs ch => rfl, hlen, ?_, ?_, ?_, ?_, ?_⟩
  · intro docs
    exact (List.sorted_mergeSort htrans htotal docs).imp (fun h => decide_eq_true_eq.mp h)
  · intro docs
    exact List.mergeSort_perm docs _
  · intro docs hne
    have hpos : 0 < (top_10_fallback docs).length := by
      rw [hlen docs]
      have := List.length_pos.mpr hne
      omega
    exact List.length_pos.mp hpos
  · intro docs e he
    unfold top_10_fallback at he
    obtain ⟨⟨i, d⟩, hmem, rfl⟩ := List.mem_map.mp he
    refine ⟨rfl, rfl, rfl, rfl, d, ?_, rfl⟩
    have hd1 : d ∈ (fallback_sorted docs).take 10 := by
      obtain ⟨hi, hget⟩ := List.mem_enum hmem
      rw [hget]
      exact List.getElem_mem hi
    have hd2 : d ∈ fallback_sorted docs := List.mem_of_mem_take hd1
    exact (List.mergeSort_perm docs _).mem_iff.mp hd2
  · norm_num [fallback_sorted, List.mergeSort, fallback_score, doc_ex1, doc_ex2]
  · norm_num [fallback_score, doc_ex1]
  · norm_num [fallback_score, doc_ex2]

/-- Witness for C9: a single supplied document yields a non-empty top-10
list, and the one produced entry has all tier booleans false with the
fallback rationale. -/
theorem C9_fallback_deterministic_reranking_witness :
    top_10_fallback [doc_ex1] ≠ [] ∧
    (mk_fallback_entry 1 doc_ex1).score_critical = false ∧
    ∃ d ∈ [doc_ex1],
      (mk_fallback_entry 1 doc_ex1).reasoning = fallback_reasoning (fallback_score d) := by
  have hne := C9_fallback_deterministic_reranking.2.2.2.2.2.1 [doc_ex1]
    (List.cons_ne_nil _ _)
  have hmem := C9_fallback_deterministic_reranking.2.2.2.2.2.2.1 [doc_ex1]
    (mk_fallback_entry 1 doc_ex1)
    (by norm_num [top_10_fallback, fallback_sorted, List.mergeSort, List.enum, List.enumFrom])
  exact ⟨hne, hmem.1, hmem.2.2.2.2⟩
